import Mathlib

/-!
Verification of the heratape data-access layer.

The definitions below are a shallow embedding of `src/heratape/tapes.py`,
`src/heratape/files.py` and `src/heratape/base.py`.  Python floats are
modelled as rationals, Python `datetime.date` values as integer day
ordinals, and Python `datetime.datetime` values as a day ordinal together
with a rational time-of-day fraction.  The database is explicit state: a
list of tape records and a list of file records.  Fallible operations
return `Except String`, carrying the exact `ValueError` message text of
the source.
-/

namespace Heratape

/-- Python `datetime.datetime`: a calendar-day ordinal plus a time-of-day
fraction.  The fraction carries any hours/minutes/seconds. -/
structure PyDatetime where
  day : Int
  tod : ℚ
  deriving DecidableEq, Repr

/-- Astropy `Time` values are produced by an external library; the only use
the source makes of one is `t.tt.datetime`, so a `Time` is modelled by the
datetime that conversion yields. -/
structure AstropyTime where
  ttDatetime : PyDatetime
  deriving DecidableEq, Repr

/-- Runtime type of the `purchase_date` argument of `add_tape` /
`update_tape`: an astropy `Time`, a `datetime.datetime`, a plain
`datetime.date`, or a value of any other type (e.g. a string). -/
inductive PurchaseDateArg where
  | aTime (t : AstropyTime)
  | aDatetime (v : PyDatetime)
  | aDate (day : Int)
  | aOther (descr : String)
  deriving DecidableEq, Repr

/-- Python-level value held in `purchase_date` after the coercion branch of
`add_tape`/`update_tape`: either a plain date or a datetime. -/
inductive PyDateVal where
  | d (day : Int)
  | dt (v : PyDatetime)
  deriving DecidableEq, Repr

/-- Calendar-day part of a date-or-datetime value.  A `Date` database
column stores exactly this part of whatever value is written to it (the
backing store coerces a datetime to its calendar date). -/
def PyDateVal.storedDay : PyDateVal → Int
  | .d day => day
  | .dt v => v.day

/-- Coercion branch of `add_tape`/`update_tape` (tapes.py lines 74-79 and
150-155): an astropy `Time` is replaced by `purchase_date.tt.datetime`; a
`datetime` is left unchanged (the source computes `purchase_date.date()`
but discards the result); a plain date is left unchanged; anything else
raises `ValueError`. -/
def coerce_purchase_date : PurchaseDateArg → Except String PyDateVal
  | .aTime t => .ok (.dt t.ttDatetime)
  | .aDatetime v => .ok (.dt v)
  | .aDate day => .ok (.d day)
  | .aOther _ => .error "purchase date must be a datetime or astropy Time object"

/-- Optional-argument form of the coercion, as in `update_tape` where
`purchase_date is None` skips every branch. -/
def coerce_opt_purchase_date : Option PurchaseDateArg → Except String (Option PyDateVal)
  | none => .ok none
  | some p =>
    match coerce_purchase_date p with
    | .error e => .error e
    | .ok v => .ok (some v)

/-- Runtime type of the `write_date` argument of `add_files_to_tape` /
`update_file`: an astropy `Time`, a `datetime.datetime`, or a value of any
other type.  A plain `datetime.date` is not a `datetime` and falls in the
last case, as in the source's `isinstance` check. -/
inductive WriteDateArg where
  | aTime (t : AstropyTime)
  | aDatetime (v : PyDatetime)
  | aOther (descr : String)
  deriving DecidableEq, Repr

/-- Coercion branch for `write_date` in `add_files_to_tape` and
`update_file` (files.py lines 116-119 and 278-281): `None` is allowed, a
`Time` becomes `write_date.tt.datetime`, a `datetime` passes through,
anything else raises `ValueError`. -/
def coerce_opt_write_date : Option WriteDateArg → Except String (Option PyDatetime)
  | none => .ok none
  | some (.aTime t) => .ok (some t.ttDatetime)
  | some (.aDatetime v) => .ok (some v)
  | some (.aOther _) =>
    .error "If set, write_date must be a datetime or astropy Time object"

/-- Row of the `tapes` table.  `purchase_date` holds the calendar-day part
actually stored in the `Date` column. -/
structure TapeRecord where
  tape_id : String
  tape_type : String
  size : Int
  purchase_date : Int
  deriving DecidableEq, Repr

/-- Row of the `files` table.  `jd_start` is the fractional Julian Date
(a Python float, modelled as a rational), `jd` the integer JD column. -/
structure FileRecord where
  filebase : String
  filepath : String
  tape_id : String
  obsid : Int
  jd_start : ℚ
  jd : Int
  size : Int
  write_date : Option PyDatetime
  deriving DecidableEq, Repr

/-- Database state: the contents of the two tables. -/
structure DBState where
  tapes : List TapeRecord
  files : List FileRecord
  deriving DecidableEq, Repr

/-- Error message raised for an undersized tape (tapes.py lines 81-84 and
157-160); it embeds the literal rejected value. -/
def sizeErrMsg (size : Int) : String :=
  "size is less than 1TB (note the units are bytes). size: " ++ toString size

/-- `add_tape` (tapes.py lines 44-92): validate the purchase date's type,
then the size threshold, then insert one row.  The calendar-day part of
the coerced value is what the `Date` column retains. -/
def add_tape (st : DBState) (tape_id : String) (tape_type : String) (size : Int)
    (purchase_date : PurchaseDateArg) : Except String DBState :=
  match coerce_purchase_date purchase_date with
  | .error e => .error e
  | .ok pd =>
    if size < 1000000000000 then
      .error (sizeErrMsg size)
    else
      .ok { st with
              tapes := st.tapes ++
                [{ tape_id := tape_id, tape_type := tape_type, size := size,
                   purchase_date := pd.storedDay }] }

/-- `get_tape` (tapes.py lines 95-114): first row whose `tape_id` matches,
`None` when absent. -/
def get_tape (st : DBState) (tape_id : String) : Option TapeRecord :=
  st.tapes.find? (fun t => t.tape_id == tape_id)

/-- Field updates applied by `update_tape`'s UPDATE statement to a matching
row: exactly the supplied columns change. -/
def applyTapeUpdates (tape_type : Option String) (size : Option Int)
    (pd : Option PyDateVal) (t : TapeRecord) : TapeRecord :=
  { t with
      tape_type := tape_type.getD t.tape_type,
      size := size.getD t.size,
      purchase_date := (pd.map PyDateVal.storedDay).getD t.purchase_date }

/-- `update_tape` (tapes.py lines 117-175): validate the purchase date's
type and the size threshold when supplied, collect the supplied fields,
return with no write when none is supplied, otherwise update every row
whose `tape_id` matches (zero rows matching is a silent no-op). -/
def update_tape (st : DBState) (tape_id : String) (tape_type : Option String)
    (size : Option Int) (purchase_date : Option PurchaseDateArg) :
    Except String DBState :=
  match coerce_opt_purchase_date purchase_date with
  | .error e => .error e
  | .ok pd =>
    let proceed : Except String DBState :=
      if tape_type.isNone && size.isNone && pd.isNone then .ok st
      else
        .ok { st with
                tapes := st.tapes.map (fun t =>
                  if t.tape_id == tape_id then
                    applyTapeUpdates tape_type size pd t
                  else t) }
    match size with
    | some s => if s < 1000000000000 then .error (sizeErrMsg s) else proceed
    | none => proceed

/-- Components of a character list split on the path separator. -/
def splitSlash : List Char → List (List Char)
  | [] => [[]]
  | c :: rest =>
    match splitSlash rest with
    | [] => [[c]]
    | cur :: more =>
      if c = '/' then [] :: cur :: more else (c :: cur) :: more

/-- `pathlib.Path(s).name`: the final path component.  pathlib's parsing
drops empty components (extra and trailing separators) and collapses
single-dot components, so `Path("a/.").name` is `"a"` and `Path(".").name`
is `""`, while `".."` is kept as an ordinary component. -/
def pathName (s : String) : String :=
  match ((splitSlash s.data).filter
      (fun p => p ≠ [] ∧ p ≠ ['.'])).getLast? with
  | some cs => String.mk cs
  | none => ""

/-- Error message raised when a referenced tape is absent (files.py lines
110-114 and 272-276). -/
def tapeMissingMsg (tape_id : String) : String :=
  "tape " ++ tape_id ++ " is not yet in the tapes table. Use the add_tape " ++
    "function to add it before adding files to it."

/-- Error message for a list whose length differs from `filepath_list`
(files.py lines 121-139). -/
def lenErrMsg (listName : String) (n n_files : Nat) : String :=
  listName ++ " is length " ++ toString n ++ ", filepath_list is length " ++
    toString n_files ++ ". They must be the same length."

/-- Rows inserted by `add_files_to_tape` (files.py lines 141-164): walk the
four lists together, deriving each base name and integer JD. -/
def buildFiles (tape_id : String) (write_date : Option PyDatetime) :
    List String → List Int → List ℚ → List Int → List FileRecord
  | fp :: fps, ob :: obs, jd :: jds, sz :: szs =>
    { filebase := pathName fp, filepath := fp, tape_id := tape_id,
      obsid := ob, jd_start := jd, jd := Int.floor jd, size := sz,
      write_date := write_date } :: buildFiles tape_id write_date fps obs jds szs
  | _, _, _, _ => []

/-- `add_files_to_tape` (files.py lines 73-168): pre-check the tape exists,
validate `write_date`, check each list's length against `filepath_list` in
source order (obsids, then jd_starts, then sizes), then bulk-insert. -/
def add_files_to_tape (st : DBState) (tape_id : String)
    (filepath_list : List String) (obsid_list : List Int)
    (jd_start_list : List ℚ) (size_list : List Int)
    (write_date : Option WriteDateArg) : Except String DBState :=
  match get_tape st tape_id with
  | none => .error (tapeMissingMsg tape_id)
  | some _ =>
    match coerce_opt_write_date write_date with
    | .error e => .error e
    | .ok wd =>
      let n_files := filepath_list.length
      if obsid_list.length ≠ n_files then
        .error (lenErrMsg "obsid_list" obsid_list.length n_files)
      else if jd_start_list.length ≠ n_files then
        .error (lenErrMsg "jd_start_list" jd_start_list.length n_files)
      else if size_list.length ≠ n_files then
        .error (lenErrMsg "size_list" size_list.length n_files)
      else
        .ok { st with
                files := st.files ++
                  buildFiles tape_id wd filepath_list obsid_list jd_start_list
                    size_list }

/-- `get_all_jds` (files.py lines 171-186): the distinct integer JDs. -/
def get_all_jds (st : DBState) : List Int :=
  (st.files.map (fun f => f.jd)).dedup

/-- Field updates applied by `update_file`'s UPDATE statement to a matching
row (files.py lines 285-303): the integer JD changes exactly when
`jd_start` does, recomputed as its floor. -/
def applyFileUpdates (filepath : Option String) (tape_id : Option String)
    (obsid : Option Int) (jd_start : Option ℚ) (size : Option Int)
    (write_date : Option PyDatetime) (f : FileRecord) : FileRecord :=
  { f with
      filepath := filepath.getD f.filepath,
      tape_id := tape_id.getD f.tape_id,
      obsid := obsid.getD f.obsid,
      jd_start := jd_start.getD f.jd_start,
      jd := (jd_start.map Int.floor).getD f.jd,
      size := size.getD f.size,
      write_date := (write_date.map some).getD f.write_date }

/-- `update_file` (files.py lines 227-305): pre-check the tape when
supplied, validate `write_date`, normalize the filename to its base name
(recording the full path as a `filepath` update when they differ), return
with no write when no update value was collected, otherwise update every
row whose `filebase` matches (zero rows matching is a silent no-op). -/
def update_file (st : DBState) (filename : String) (tape_id : Option String)
    (obsid : Option Int) (jd_start : Option ℚ) (size : Option Int)
    (write_date : Option WriteDateArg) : Except String DBState :=
  if tape_id.isSome && (get_tape st (tape_id.getD "")).isNone then
    .error (tapeMissingMsg (tape_id.getD ""))
  else
    match coerce_opt_write_date write_date with
    | .error e => .error e
    | .ok wd =>
      let filebase := pathName filename
      let filepathUpdate : Option String :=
        if filename ≠ filebase then some filename else none
      if filepathUpdate.isNone && tape_id.isNone && obsid.isNone &&
          jd_start.isNone && size.isNone && wd.isNone then
        .ok st
      else
        .ok { st with
                files := st.files.map (fun f =>
                  if f.filebase == filebase then
                    applyFileUpdates filepathUpdate tape_id obsid jd_start size
                      wd f
                  else f) }

/-! ### Configuration-driven connection setup (base.py lines 159-243) -/

/-- Python `repr` of a string as interpolated by `f"...{path!r}..."`: the
text wrapped in single quotes (escaping inside the path is not modelled;
the paths of interest contain no quote). -/
def pyRepr (s : String) : String := "\x27" ++ s ++ "\x27"

/-- Entry of the `databases` mapping of the config file. -/
structure DBConfigEntry where
  url : Option String
  mode : Option String
  deriving DecidableEq, Repr

/-- Parsed JSON configuration file for `get_heratape_db`. -/
structure HeratapeConfig where
  default_db_name : Option String
  databases : Option (List (String × DBConfigEntry))
  deriving DecidableEq, Repr

/-- How a call to `get_heratape_db` fails: an `UnboundLocalError` raised by
reading a never-assigned local variable, or an explicit `RuntimeError`. -/
inductive PyFailure where
  | unboundLocalError (var : String)
  | runtimeError (msg : String)
  deriving DecidableEq, Repr

/-- Connection mode selected by `get_heratape_db`. -/
inductive DBKind where
  | declarative
  | automapped
  deriving DecidableEq, Repr

/-- `get_heratape_db` (base.py lines 159-243), up to the mode dispatch; the
posterior connection test is external I/O and is not modelled.  The local
`db_name` is assigned only inside `if forced_db_name is not None:` (line
183-184); the next statement executed after the config file is read is
`if db_name is None:` (line 189), so when `forced_db_name` is `None` the
read of `db_name` raises `UnboundLocalError` before the default-name
lookup in the config is ever reached. -/
def get_heratape_db (config_file : String) (config : HeratapeConfig)
    (forced_db_name : Option String) : Except PyFailure (DBKind × String) :=
  match forced_db_name with
  | none => .error (.unboundLocalError "db_name")
  | some db_name =>
    match config.databases with
    | none =>
      .error (.runtimeError
        ("cannot connect to heratape database: no \"databases\" section in " ++
          pyRepr config_file))
    | some dbs =>
      match (dbs.find? (fun p => p.1 == db_name)).map Prod.snd with
      | none =>
        .error (.runtimeError
          ("cannot connect to heratape database: no DB named " ++
            pyRepr db_name ++ " in the \"databases\" section of " ++
            pyRepr config_file))
      | some entry =>
        match entry.url with
        | none =>
          .error (.runtimeError
            ("cannot connect to heratape database: no \"url\" item for the DB named " ++
              pyRepr db_name ++ " in " ++ pyRepr config_file))
        | some db_url =>
          match entry.mode with
          | none =>
            .error (.runtimeError
              ("cannot connect to heratape database: no \"mode\" item for the DB named " ++
                pyRepr db_name ++ " in " ++ pyRepr config_file))
          | some db_mode =>
            if db_mode = "testing" then .ok (.declarative, db_url)
            else if db_mode = "production" then .ok (.automapped, db_url)
            else
              .error (.runtimeError
                ("cannot connect to heratape database: unrecognized mode " ++
                  pyRepr db_mode ++ " for the DB named " ++ pyRepr db_name ++
                  " in " ++ pyRepr config_file))

/-- Message the spec (and the repository's own test for the missing-default
case) expects when no DB name is given and the config lists no default. -/
def noDefaultMsg (config_file : String) : String :=
  "cannot connect to heratape database: no DB name provided, and no default listed in " ++
    pyRepr config_file

/-! ### Approximate-equality comparator `Base.isclose` (base.py lines 32-95) -/

/-- Runtime value held in one column of a mapped record.  Python floats and
float sequences are modelled as rationals; a `numpy` array and a plain list
of floats both take the `pyFloatList` form. -/
inductive PyVal where
  | pyBool (b : Bool)
  | pyInt (n : Int)
  | pyStr (s : String)
  | pyDate (day : Int)
  | pyDatetime (v : PyDatetime)
  | pyNone
  | pyFloat (x : ℚ)
  | pyFloatList (xs : List ℚ)
  deriving DecidableEq, Repr

/-- `isinstance(other, type(self))` for column values: `True` when `other`'s
runtime class is `self`'s class or a subclass of it.  In Python `bool` is a
subclass of `int` and `datetime` is a subclass of `date`; no other cross-
constructor pair is related. -/
def pyIsinstance (other selfVal : PyVal) : Bool :=
  match selfVal, other with
  | .pyBool _, .pyBool _ => true
  | .pyInt _, .pyInt _ => true
  | .pyInt _, .pyBool _ => true
  | .pyStr _, .pyStr _ => true
  | .pyDate _, .pyDate _ => true
  | .pyDate _, .pyDatetime _ => true
  | .pyDatetime _, .pyDatetime _ => true
  | .pyNone, .pyNone => true
  | .pyFloat _, .pyFloat _ => true
  | .pyFloatList _, .pyFloatList _ => true
  | _, _ => false

/-- Numeric value of an int-branch operand: Python compares an `int` with a
`bool` numerically (`1 == True`). -/
def pyIntValue : PyVal → Int
  | .pyBool b => if b then 1 else 0
  | .pyInt n => n
  | _ => 0

/-- Python `==` between date-branch operands: a plain `date` never equals a
`datetime`, even at midnight of the same day. -/
def pyDateEq : PyVal → PyVal → Bool
  | .pyDate a, .pyDate b => a == b
  | .pyDatetime a, .pyDatetime b => a == b
  | _, _ => false

/-- `np.isclose(a, b, atol, rtol)`: the relative tolerance is scaled by the
second operand. -/
def npIsclose (atol rtol a b : ℚ) : Bool := |a - b| ≤ atol + rtol * |b|

/-- `np.allclose` on two equal-length float sequences, element-wise.  The
sequences compared by the source always have equal length (they are values
of one column of one table). -/
def npAllclose (atol rtol : ℚ) : List ℚ → List ℚ → Bool
  | [], [] => true
  | a :: as', b :: bs' => npIsclose atol rtol a b && npAllclose atol rtol as' bs'
  | _, _ => false

/-- One column comparison of `Base.isclose` (base.py lines 48-94): the
`isinstance` gate first, then the source's branch order — bool before int
(a bool is a subclass of int), then str, then date (catching datetimes),
then `None`, and a tolerance comparison for everything else. -/
def colClose (atol rtol : ℚ) (selfVal otherVal : PyVal) : Bool :=
  if ¬pyIsinstance otherVal selfVal then false
  else
    match selfVal with
    | .pyBool a =>
      match otherVal with
      | .pyBool b => a == b
      | _ => false
    | .pyInt a => a == pyIntValue otherVal
    | .pyStr s =>
      match otherVal with
      | .pyStr t => s == t
      | _ => false
    | .pyDate _ => pyDateEq selfVal otherVal
    | .pyDatetime _ => pyDateEq selfVal otherVal
    | .pyNone => true
    | .pyFloat a =>
      match otherVal with
      | .pyFloat b => npIsclose atol rtol a b
      | _ => false
    | .pyFloatList as' =>
      match otherVal with
      | .pyFloatList bs' => npAllclose atol rtol as' bs'
      | _ => false

/-- Mapped record: its class name, its columns in declaration order, and
its per-column tolerance overrides `{column: {atol, rtol}}`. -/
structure TableRow where
  className : String
  cols : List (String × PyVal)
  tols : List (String × ℚ × ℚ)
  deriving DecidableEq, Repr

/-- Value of a named column of a record (`getattr(rec, name)`); the mapped
classes give every declared column name exactly one attribute. -/
def lookupCol (cols : List (String × PyVal)) (name : String) : Option PyVal :=
  (cols.find? (fun p => p.1 == name)).map Prod.snd

/-- Tolerances for one column: the record's override when listed, otherwise
the numpy defaults `atol=1e-08`, `rtol=1e-05` (base.py lines 78-84). -/
def lookupTol (tols : List (String × ℚ × ℚ)) (name : String) : ℚ × ℚ :=
  ((tols.find? (fun p => p.1 == name)).map Prod.snd).getD
    (1 / 100000000, 1 / 100000)

/-- Column loop of `Base.isclose`: every column of `self` must compare
close against `other`'s same-named attribute.  The source's assert
guarantees the two records (being of one class) share their column-name
set, so the lookup never misses; a miss is mapped to `false`. -/
def rowClose (tols : List (String × ℚ × ℚ)) (otherCols : List (String × PyVal)) :
    List (String × PyVal) → Bool
  | [] => true
  | (name, v) :: rest =>
    match lookupCol otherCols name with
    | none => false
    | some w =>
      let t := lookupTol tols name
      colClose t.1 t.2 v w && rowClose tols otherCols rest

/-- `Base.isclose` (base.py lines 32-95): `False` straight away when the
two records are not of one class, otherwise the column loop with `self`'s
tolerances. -/
def isclose (a b : TableRow) : Bool :=
  if a.className ≠ b.className then false
  else rowClose a.tols b.cols a.cols

/-! ### Schema validator `is_valid_database`

The module `heratape/db_check.py` is not among the staged source files
(only its tests and callers are), so the validator is modelled from the
spec, §4.1 and §9: declared attributes carry a kind tag, and only
`column`-kind attributes are matched against the live table. -/

/-- Modelled from the spec: kind of a declared model attribute — a
physically persisted column, a relationship reference, or a computed
accessor property (the latter two have no column of their own in the live
table). -/
inductive AttrKind where
  | column
  | relation
  | computed
  deriving DecidableEq, Repr

/-- Modelled from the spec: one declared attribute of a model table; for a
`column`-kind attribute, `name` is the physical column name (for a
computed accessor backed by a differently named column, the backing
column appears here as its own `column`-kind attribute). -/
structure ModelAttr where
  name : String
  kind : AttrKind
  deriving DecidableEq, Repr

/-- Modelled from the spec: a declared model table. -/
structure ModelTable where
  name : String
  attrs : List ModelAttr
  deriving DecidableEq, Repr

/-- Modelled from the spec: a table of the live database as the
introspector reports it — its name and its column names. -/
structure LiveTable where
  name : String
  columns : List String
  deriving DecidableEq, Repr

/-- Declared physical column names of a model table: only `column`-kind
attributes count. -/
def physicalCols (t : ModelTable) : List String :=
  (t.attrs.filter (fun a => a.kind = AttrKind.column)).map (fun a => a.name)

/-- Live table of a given name, when the catalog has one. -/
def lookupLive (live : List LiveTable) (name : String) : Option LiveTable :=
  live.find? (fun lt => lt.name == name)

/-- Violation message for a declared table missing from the live database
(wording fixed by the spec and by `test_db_check.py`). -/
def tableViolationMsg (table : String) : String :=
  "Model " ++ table ++ " declares table " ++ table ++
    " which does not exist in database"

/-- Violation message for a declared physical column missing from the live
table (wording fixed by the spec and by `test_db_check.py`). -/
def colViolationMsg (table col : String) : String :=
  "Model " ++ table ++ " declares column " ++ col ++
    " which does not exist in database"

/-- Modelled from the spec: violations recorded for one declared table —
the table-missing message alone when the live database has no table of
that name (column checks skipped), otherwise one message per declared
physical column absent from the live table. -/
def tableViolations (live : List LiveTable) (t : ModelTable) : List String :=
  match lookupLive live t.name with
  | none => [tableViolationMsg t.name]
  | some lt =>
    ((physicalCols t).filter (fun c => ¬lt.columns.contains c)).map
      (fun c => colViolationMsg t.name c)

/-- Modelled from the spec: all violations of a declared schema against
the live database, in declaration order. -/
def schemaViolations (tables : List ModelTable) (live : List LiveTable) :
    List String :=
  tables.flatMap (tableViolations live)

/-- Modelled from the spec: `is_valid_database(expected_schema, session)`
— trivially valid when the expected schema is absent or empty, otherwise
`(len(violations) == 0, joined_violation_messages)`. -/
def is_valid_database (expected_schema : Option (List ModelTable))
    (live : List LiveTable) : Bool × String :=
  match expected_schema with
  | none => (true, "")
  | some tables =>
    let violations := schemaViolations tables live
    (violations.isEmpty, String.intercalate "\n" violations)

/-- Invariant claimed for the files table: every record's integer JD
column is the floor of its fractional `jd_start` column. -/
def FilesInvariant (st : DBState) : Prop :=
  ∀ f ∈ st.files, f.jd = Int.floor f.jd_start

/-- Tolerance overrides with nonnegative `atol` and `rtol`, as every table
class of the program declares (`files.py` sets `atol=1e-3/86400, rtol=0`;
the defaults are `1e-8` and `1e-5`). -/
def tolsNonneg (tols : List (String × ℚ × ℚ)) : Prop :=
  ∀ p ∈ tols, 0 ≤ p.2.1 ∧ 0 ≤ p.2.2

/-- Two column values of the identical runtime class drawn from the
exactly-compared kinds (bool, int, str, date, datetime, None) — the kinds
whose comparison in `isclose` is plain equality, with no tolerance and no
cross-class subclassing. -/
def exactKindPair : PyVal → PyVal → Bool
  | .pyBool _, .pyBool _ => true
  | .pyInt _, .pyInt _ => true
  | .pyStr _, .pyStr _ => true
  | .pyDate _, .pyDate _ => true
  | .pyDatetime _, .pyDatetime _ => true
  | .pyNone, .pyNone => true
  | _, _ => false

/-! ### Shared helper lemmas -/

theorem beq_symm {α : Type} [DecidableEq α] (a b : α) : (a == b) = (b == a) := by
  by_cases h : a = b
  · simp [h]
  · have h' : ¬b = a := fun hh => h hh.symm
    simp [h, h']

theorem map_eq_self_of_fixed {α : Type} (l : List α) (f : α → α)
    (h : ∀ x ∈ l, f x = x) : l.map f = l := by
  induction l with
  | nil => rfl
  | cons a t ih =>
    simp only [List.map_cons, h a (List.mem_cons_self a t)]
    rw [ih (fun x hx => h x (List.mem_cons_of_mem a hx))]

/-! ### C3: missing-default configuration error -/

/-- C3: the claim says a call to `get_heratape_db` with no forced database
name and no `default_db_name` in the config fails with a `RuntimeError`
stating that no DB name was provided and no default is listed.  The code
instead reads the local `db_name` before it was ever assigned (it is
assigned only under `if forced_db_name is not None:`), so every call with
`forced_db_name=None` raises `UnboundLocalError`, whatever the config
holds; the `RuntimeError` with the claimed message is unreachable.  This
contradicts the repository's own test
`test_get_heratape_db[no_default]`, which expects the `RuntimeError`. -/
theorem c3_get_heratape_db_unbound_local :
    (∀ (path : String) (config : HeratapeConfig),
      get_heratape_db path config none =
        .error (.unboundLocalError "db_name")) ∧
    get_heratape_db "/root/.heratape/heratape_config.json"
        { default_db_name := none,
          databases := some [("heratape",
            { url := some "postgresql://x", mode := some "testing" })] } none ≠
      .error (.runtimeError
        (noDefaultMsg "/root/.heratape/heratape_config.json")) := by
  refine ⟨fun path config => rfl, ?_⟩
  intro hcontra
  exact PyFailure.noConfusion (Except.error.inj hcontra)

/-! ### C6: tape size threshold -/

/-- C6: `add_tape` and `update_tape` raise a `ValueError` whose message
carries the literal rejected size exactly when the supplied size is below
`1_000_000_000_000`; exactly `1_000_000_000_000` is accepted.  The
purchase-date argument must itself be well-typed, since its validation
precedes the size check in the source. -/
theorem c6_size_threshold (st : DBState) (tid ttype : String) (size : Int)
    (pd : PurchaseDateArg) (pdv : PyDateVal)
    (hpd : coerce_purchase_date pd = .ok pdv) :
    ((add_tape st tid ttype size pd = .error (sizeErrMsg size) ∧
        update_tape st tid none (some size) none = .error (sizeErrMsg size)) ↔
      size < 1000000000000) ∧
    (sizeErrMsg size =
      "size is less than 1TB (note the units are bytes). size: " ++
        toString size) ∧
    (size = 1000000000000 →
      (∃ st', add_tape st tid ttype size pd = .ok st') ∧
        ∃ st', update_tape st tid none (some size) none = .ok st') := by
  refine ⟨⟨fun h => ?_, fun h => ?_⟩, rfl, fun h => ?_⟩
  · by_contra hge
    have h1 := h.1
    simp [add_tape, hpd, hge] at h1
  · constructor
    · simp [add_tape, hpd, if_pos h]
    · simp [update_tape, coerce_opt_purchase_date, if_pos h]
  · subst h
    constructor
    · refine ⟨{ st with
          tapes := st.tapes ++
            [{ tape_id := tid, tape_type := ttype, size := 1000000000000,
               purchase_date := pdv.storedDay }] }, ?_⟩
      simp [add_tape, hpd]
    · refine ⟨{ st with
          tapes := st.tapes.map (fun t =>
            if t.tape_id == tid then
              applyTapeUpdates none (some 1000000000000) none t
            else t) }, ?_⟩
      simp [update_tape, coerce_opt_purchase_date]

/-- C6 witness: the threshold at the boundary value and one rejected
value, on an empty database. -/
theorem c6_witness :
    (((add_tape { tapes := [], files := [] } "HERA_01" "foo" 1000000
          (PurchaseDateArg.aDate 0) = .error (sizeErrMsg 1000000) ∧
        update_tape { tapes := [], files := [] } "HERA_01" none
          (some 1000000) none = .error (sizeErrMsg 1000000)) ↔
      (1000000 : Int) < 1000000000000) ∧
    (sizeErrMsg 1000000 =
      "size is less than 1TB (note the units are bytes). size: " ++
        toString (1000000 : Int)) ∧
    ((1000000 : Int) = 1000000000000 →
      (∃ st', add_tape { tapes := [], files := [] } "HERA_01" "foo" 1000000
          (PurchaseDateArg.aDate 0) = .ok st') ∧
        ∃ st', update_tape { tapes := [], files := [] } "HERA_01" none
          (some 1000000) none = .ok st')) ∧
    ∃ st', add_tape { tapes := [], files := [] } "HERA_01" "foo" 1000000000000
        (PurchaseDateArg.aDate 0) = .ok st' :=
  ⟨c6_size_threshold { tapes := [], files := [] } "HERA_01" "foo" 1000000
      (PurchaseDateArg.aDate 0) (PyDateVal.d 0) rfl,
    ((c6_size_threshold { tapes := [], files := [] } "HERA_01" "foo"
        1000000000000 (PurchaseDateArg.aDate 0) (PyDateVal.d 0) rfl).2.2
      rfl).1⟩

/-! ### C8: referenced tape must exist -/

/-- C8: `add_files_to_tape`, and `update_file` when `tape_id` is supplied,
fail with a `ValueError` naming the missing tape whenever the referenced
`tape_id` resolves to no tape record.  The lookup is the first check of
both functions, so the error is raised before any insert or update (in
this embedding an error result carries no state change). -/
theorem c8_tape_exists_precheck (st : DBState) (tid : String)
    (h : get_tape st tid = none) :
    (∀ fps obs jds szs wd,
      add_files_to_tape st tid fps obs jds szs wd =
        .error (tapeMissingMsg tid)) ∧
    (∀ fn ob jd sz wd,
      update_file st fn (some tid) ob jd sz wd =
        .error (tapeMissingMsg tid)) ∧
    tapeMissingMsg tid =
      "tape " ++ tid ++ " is not yet in the tapes table. Use the add_tape " ++
        "function to add it before adding files to it." := by
  refine ⟨fun fps obs jds szs wd => ?_, fun fn ob jd sz wd => ?_, rfl⟩
  · simp [add_files_to_tape, h]
  · simp [update_file, h]

/-- C8 witness: a database with one tape `HERA_01` and a reference to the
absent tape `HERA_02`. -/
theorem c8_witness :
    (∀ fps obs jds szs wd,
      add_files_to_tape
          { tapes := [{ tape_id := "HERA_01", tape_type := "foo",
                        size := 8000000000000, purchase_date := 0 }],
            files := [] } "HERA_02" fps obs jds szs wd =
        .error (tapeMissingMsg "HERA_02")) ∧
    (∀ fn ob jd sz wd,
      update_file
          { tapes := [{ tape_id := "HERA_01", tape_type := "foo",
                        size := 8000000000000, purchase_date := 0 }],
            files := [] } fn (some "HERA_02") ob jd sz wd =
        .error (tapeMissingMsg "HERA_02")) ∧
    tapeMissingMsg "HERA_02" =
      "tape " ++ "HERA_02" ++
        " is not yet in the tapes table. Use the add_tape " ++
        "function to add it before adding files to it." :=
  c8_tape_exists_precheck
    { tapes := [{ tape_id := "HERA_01", tape_type := "foo",
                  size := 8000000000000, purchase_date := 0 }],
      files := [] } "HERA_02" rfl

/-! ### C9: an update with no fields is a no-op -/

/-- C9 counterexample: the claim says `update_file` with no optional field
supplied performs no write.  Passing a full path as `filename` with every
optional field omitted nevertheless collects a `filepath` update value
(files.py lines 286-287), so the matching record's `filepath` column is
rewritten: here the stored path `/old/b.txt` becomes `/new/b.txt`. -/
theorem c9_counterexample :
    update_file
        { tapes := [{ tape_id := "T1", tape_type := "foo",
                      size := 1000000000000, purchase_date := 0 }],
          files := [{ filebase := "b.txt", filepath := "/old/b.txt",
                      tape_id := "T1", obsid := 1, jd_start := 2, jd := 2,
                      size := 10, write_date := none }] }
        "/new/b.txt" none none none none none =
      .ok { tapes := [{ tape_id := "T1", tape_type := "foo",
                        size := 1000000000000, purchase_date := 0 }],
            files := [{ filebase := "b.txt", filepath := "/new/b.txt",
                        tape_id := "T1", obsid := 1, jd_start := 2, jd := 2,
                        size := 10, write_date := none }] } ∧
    ({ filebase := "b.txt", filepath := "/new/b.txt", tape_id := "T1",
       obsid := 1, jd_start := 2, jd := 2, size := 10,
       write_date := none } : FileRecord) ≠
      { filebase := "b.txt", filepath := "/old/b.txt", tape_id := "T1",
        obsid := 1, jd_start := 2, jd := 2, size := 10,
        write_date := none } := by
  constructor
  · rfl
  · decide

/-- C9 (amended): `update_tape` with no optional field supplied performs no
write; `update_file` with no optional field supplied performs no write
when the filename it is given is a bare base name, while a full path makes
it rewrite the `filepath` column of the matching records even though no
optional field was supplied. -/
theorem c9_noop_amended (st : DBState) (tid : String) (fn fullfn : String)
    (hbase : fn = pathName fn) (hfull : fullfn ≠ pathName fullfn) :
    update_tape st tid none none none = .ok st ∧
    update_file st fn none none none none none = .ok st ∧
    update_file st fullfn none none none none none =
      .ok { st with
              files := st.files.map (fun f =>
                if f.filebase == pathName fullfn then
                  { f with filepath := fullfn }
                else f) } := by
  refine ⟨rfl, ?_, ?_⟩
  · simp [update_file, coerce_opt_write_date, ← hbase]
  · simp only [update_file, coerce_opt_write_date]
    simp [if_neg hfull, applyFileUpdates]

/-- C9 witness: one record whose path is rewritten by a full-path call
with no optional fields, and no-op calls alongside. -/
theorem c9_witness :
    update_tape
        { tapes := [{ tape_id := "T1", tape_type := "foo",
                      size := 1000000000000, purchase_date := 0 }],
          files := [] } "T1" none none none =
      .ok { tapes := [{ tape_id := "T1", tape_type := "foo",
                        size := 1000000000000, purchase_date := 0 }],
            files := [] } ∧
    update_file
        { tapes := [{ tape_id := "T1", tape_type := "foo",
                      size := 1000000000000, purchase_date := 0 }],
          files := [] } "b.txt" none none none none none =
      .ok { tapes := [{ tape_id := "T1", tape_type := "foo",
                        size := 1000000000000, purchase_date := 0 }],
            files := [] } ∧
    update_file
        { tapes := [{ tape_id := "T1", tape_type := "foo",
                      size := 1000000000000, purchase_date := 0 }],
          files := [] } "/data/b.txt" none none none none none =
      .ok { tapes := [{ tape_id := "T1", tape_type := "foo",
                        size := 1000000000000, purchase_date := 0 }],
            files := ([] : List FileRecord).map (fun f =>
              if f.filebase == pathName "/data/b.txt" then
                { f with filepath := "/data/b.txt" }
              else f) } :=
  c9_noop_amended
    { tapes := [{ tape_id := "T1", tape_type := "foo",
                  size := 1000000000000, purchase_date := 0 }],
      files := [] } "T1" "b.txt" "/data/b.txt" (by decide) (by decide)

/-! ### C10: updates that match no record are silent no-ops -/

/-- C10: `update_tape` with a `tape_id` matching no tape record, and
`update_file` with a filename whose base name matches no file record,
given valid field values, raise no error and leave every record unchanged:
the UPDATE statement simply affects zero rows. -/
theorem c10_missing_target_noop (st : DBState) (tid fn ttype : String)
    (s : Int) (d ob sz : Int) (jd : ℚ)
    (htape : ∀ t ∈ st.tapes, t.tape_id ≠ tid)
    (hfile : ∀ f ∈ st.files, f.filebase ≠ pathName fn)
    (hs : ¬s < 1000000000000) :
    update_tape st tid (some ttype) (some s)
        (some (PurchaseDateArg.aDate d)) = .ok st ∧
    update_file st fn none (some ob) (some jd) (some sz) none = .ok st := by
  constructor
  · have hmap : st.tapes.map (fun t =>
        if t.tape_id = tid then
          applyTapeUpdates (some ttype) (some s) (some (PyDateVal.d d)) t
        else t) = st.tapes :=
      map_eq_self_of_fixed _ _ (fun t ht => if_neg (htape t ht))
    simp [update_tape, coerce_opt_purchase_date, coerce_purchase_date, hs,
      hmap]
  · have hmap : ∀ fpU : Option String, st.files.map (fun f =>
        if f.filebase = pathName fn then
          applyFileUpdates fpU none (some ob) (some jd) (some sz) none f
        else f) = st.files := fun fpU =>
      map_eq_self_of_fixed _ _ (fun f hf => if_neg (hfile f hf))
    simp [update_file, coerce_opt_write_date, hmap]

/-- C10 witness: updates aimed at the absent tape `T9` and the absent file
`nofile.txt` leave a one-tape, one-file database unchanged. -/
theorem c10_witness :
    update_tape
        { tapes := [{ tape_id := "T1", tape_type := "foo",
                      size := 1000000000000, purchase_date := 0 }],
          files := [{ filebase := "b.txt", filepath := "/old/b.txt",
                      tape_id := "T1", obsid := 1, jd_start := 2, jd := 2,
                      size := 10, write_date := none }] }
        "T9" (some "bar") (some 2000000000000)
        (some (PurchaseDateArg.aDate 5)) =
      .ok { tapes := [{ tape_id := "T1", tape_type := "foo",
                        size := 1000000000000, purchase_date := 0 }],
            files := [{ filebase := "b.txt", filepath := "/old/b.txt",
                        tape_id := "T1", obsid := 1, jd_start := 2, jd := 2,
                        size := 10, write_date := none }] } ∧
    update_file
        { tapes := [{ tape_id := "T1", tape_type := "foo",
                      size := 1000000000000, purchase_date := 0 }],
          files := [{ filebase := "b.txt", filepath := "/old/b.txt",
                      tape_id := "T1", obsid := 1, jd_start := 2, jd := 2,
                      size := 10, write_date := none }] }
        "nofile.txt" none (some 7) (some 3) (some 20) none =
      .ok { tapes := [{ tape_id := "T1", tape_type := "foo",
                        size := 1000000000000, purchase_date := 0 }],
            files := [{ filebase := "b.txt", filepath := "/old/b.txt",
                        tape_id := "T1", obsid := 1, jd_start := 2, jd := 2,
                        size := 10, write_date := none }] } :=
  c10_missing_target_noop
    { tapes := [{ tape_id := "T1", tape_type := "foo",
                  size := 1000000000000, purchase_date := 0 }],
      files := [{ filebase := "b.txt", filepath := "/old/b.txt",
                  tape_id := "T1", obsid := 1, jd_start := 2, jd := 2,
                  size := 10, write_date := none }] }
    "T9" "nofile.txt" "bar" 2000000000000 5 7 20 3
    (by decide) (by decide) (by decide)

/-! ### C4: purchase date coercion and storage -/

/-- C4: `add_tape` and `update_tape` accept `purchase_date` as a datetime,
a plain date, or an astropy `Time` (converted via `tt.datetime`), and the
date-only `purchase_date` column stores the calendar day with any
time-of-day fraction discarded (`t.ttDatetime.day` and `v.day` drop the
`tod` field); any other argument type raises a `ValueError`.  The size
hypothesis is needed on the success paths because the size check follows
the date validation in the source. -/
theorem c4_purchase_date_conversion (st : DBState) (tid ttype : String)
    (size : Int) (t : AstropyTime) (v : PyDatetime) (day : Int)
    (descr : String) (hsize : ¬size < 1000000000000) :
    (add_tape st tid ttype size (.aTime t) =
      .ok { st with tapes := st.tapes ++
        [{ tape_id := tid, tape_type := ttype, size := size,
           purchase_date := t.ttDatetime.day }] }) ∧
    (add_tape st tid ttype size (.aDatetime v) =
      .ok { st with tapes := st.tapes ++
        [{ tape_id := tid, tape_type := ttype, size := size,
           purchase_date := v.day }] }) ∧
    (add_tape st tid ttype size (.aDate day) =
      .ok { st with tapes := st.tapes ++
        [{ tape_id := tid, tape_type := ttype, size := size,
           purchase_date := day }] }) ∧
    (∀ sz2 : Int, add_tape st tid ttype sz2 (.aOther descr) =
      .error "purchase date must be a datetime or astropy Time object") ∧
    (update_tape st tid none none (some (.aTime t)) =
      .ok { st with tapes := st.tapes.map (fun r =>
        if r.tape_id = tid then { r with purchase_date := t.ttDatetime.day }
        else r) }) ∧
    (update_tape st tid none none (some (.aDatetime v)) =
      .ok { st with tapes := st.tapes.map (fun r =>
        if r.tape_id = tid then { r with purchase_date := v.day }
        else r) }) ∧
    (update_tape st tid none none (some (.aDate day)) =
      .ok { st with tapes := st.tapes.map (fun r =>
        if r.tape_id = tid then { r with purchase_date := day }
        else r) }) ∧
    (update_tape st tid none none (some (.aOther descr)) =
      .error "purchase date must be a datetime or astropy Time object") := by
  refine ⟨?_, ?_, ?_, fun sz2 => rfl, ?_, ?_, ?_, rfl⟩ <;>
    simp [add_tape, update_tape, coerce_purchase_date,
      coerce_opt_purchase_date, applyTapeUpdates, PyDateVal.storedDay, hsize]

/-- C4 witness: a `Time` whose `tt.datetime` falls half a day into day
20103 is stored as the bare day 20103 on an empty database. -/
theorem c4_witness :
    add_tape { tapes := [], files := [] } "HERA_01" "foo" 8000000000000
        (.aTime { ttDatetime := { day := 20103, tod := 1/2 } }) =
      .ok { tapes := [{ tape_id := "HERA_01", tape_type := "foo",
                        size := 8000000000000, purchase_date := 20103 }],
            files := [] } :=
  (c4_purchase_date_conversion { tapes := [], files := [] } "HERA_01" "foo"
    8000000000000 { ttDatetime := { day := 20103, tod := 1/2 } }
    { day := 20144, tod := 1/4 } 20200 "2025-01-15" (by decide)).1

/-! ### C5: integer JD is the floor of the fractional JD -/

theorem buildFiles_jd (tid : String) (wd : Option PyDatetime) :
    ∀ (fps : List String) (obs : List Int) (jds : List ℚ) (szs : List Int),
      ∀ f ∈ buildFiles tid wd fps obs jds szs, f.jd = Int.floor f.jd_start := by
  intro fps
  induction fps with
  | nil => intro obs jds szs f hf; simp [buildFiles] at hf
  | cons fp fps ih =>
    intro obs jds szs f hf
    cases obs with
    | nil => simp [buildFiles] at hf
    | cons ob obs =>
      cases jds with
      | nil => simp [buildFiles] at hf
      | cons jd jds =>
        cases szs with
        | nil => simp [buildFiles] at hf
        | cons sz szs =>
          simp only [buildFiles, List.mem_cons] at hf
          rcases hf with rfl | hf
          · rfl
          · exact ih obs jds szs f hf

/-- C5: every file record satisfies `jd = floor(jd_start)` at creation via
`add_files_to_tape` and after every `update_file` call; when `jd_start` is
supplied to `update_file` the integer JD is recomputed as its floor and
written with it, and when `jd_start` is not supplied neither column is
touched, so the integer JD is never written independently. -/
theorem c5_jd_floor_invariant (st st' : DBState) :
    (∀ tid fps obs jds szs wd, FilesInvariant st →
      add_files_to_tape st tid fps obs jds szs wd = .ok st' →
      FilesInvariant st') ∧
    (∀ fn tid ob jd sz wd, FilesInvariant st →
      update_file st fn tid ob jd sz wd = .ok st' → FilesInvariant st') ∧
    (∀ fn tid ob sz wd, update_file st fn tid ob none sz wd = .ok st' →
      st'.files.map (fun f => f.jd) = st.files.map (fun f => f.jd) ∧
      st'.files.map (fun f => f.jd_start) =
        st.files.map (fun f => f.jd_start)) := by
  refine ⟨?_, ?_, ?_⟩
  · intro tid fps obs jds szs wd hinv hok
    simp only [add_files_to_tape] at hok
    split at hok
    · exact Except.noConfusion hok
    · split at hok
      · exact Except.noConfusion hok
      · split at hok
        · exact Except.noConfusion hok
        · split at hok
          · exact Except.noConfusion hok
          · split at hok
            · exact Except.noConfusion hok
            · injection hok with h
              subst h
              intro f hf
              rcases List.mem_append.mp hf with hf | hf
              · exact hinv f hf
              · exact buildFiles_jd _ _ _ _ _ _ f hf
  · intro fn tid ob jd sz wd hinv hok
    simp only [update_file] at hok
    repeat' split at hok
    all_goals first
      | exact Except.noConfusion hok
      | (injection hok with h; subst h; exact hinv)
      | (injection hok with h
         subst h
         intro f hf
         simp only [List.mem_map] at hf
         rcases hf with ⟨g, hg, rfl⟩
         by_cases hmatch : g.filebase = pathName fn
         · cases jd with
           | none =>
             simp only [hmatch, if_true, beq_self_eq_true, applyFileUpdates,
               Option.map_none, Option.getD_none, if_pos]
             exact hinv g hg
           | some q =>
             simp [hmatch, applyFileUpdates]
         · simp only [hmatch, if_false, beq_iff_eq, Bool.false_eq_true]
           exact hinv g hg)
  · intro fn tid ob sz wd hok
    simp only [update_file] at hok
    repeat' split at hok
    all_goals first
      | exact Except.noConfusion hok
      | (injection hok with h; subst h; exact ⟨rfl, rfl⟩)
      | (injection hok with h
         subst h
         constructor <;>
           · dsimp only
             rw [List.map_map]
             refine List.map_congr_left (fun g hg => ?_)
             by_cases hmatch : g.filebase = pathName fn <;>
               simp [hmatch, applyFileUpdates])

/-! ### C7: list length validation in add_files_to_tape -/

/-- C7: `add_files_to_tape` fails whenever `obsid_list`, `jd_start_list`
or `size_list` has a length different from `filepath_list`; when the
referenced tape exists and the `write_date` argument is well-typed, the
error is the length-mismatch `ValueError` naming the first mismatched
list in check order together with its actual length and the expected
length, whose exact wording the last conjunct fixes. -/
theorem c7_length_mismatch (st : DBState) (tid : String)
    (fps : List String) (obs : List Int) (jds : List ℚ) (szs : List Int)
    (wd : Option WriteDateArg)
    (hmis : obs.length ≠ fps.length ∨ jds.length ≠ fps.length ∨
      szs.length ≠ fps.length) :
    (∃ e, add_files_to_tape st tid fps obs jds szs wd = .error e) ∧
    (∀ tp, get_tape st tid = some tp →
      ∀ w, coerce_opt_write_date wd = .ok w →
      ∃ nm n, n ≠ fps.length ∧
        add_files_to_tape st tid fps obs jds szs wd =
          .error (lenErrMsg nm n fps.length) ∧
        ((nm = "obsid_list" ∧ n = obs.length) ∨
          (nm = "jd_start_list" ∧ n = jds.length) ∨
          (nm = "size_list" ∧ n = szs.length))) ∧
    (∀ nm n m, lenErrMsg nm n m = nm ++ " is length " ++ toString n ++
      ", filepath_list is length " ++ toString m ++
      ". They must be the same length.") := by
  have main : ∀ tp, get_tape st tid = some tp →
      ∀ w, coerce_opt_write_date wd = .ok w →
      ∃ nm n, n ≠ fps.length ∧
        add_files_to_tape st tid fps obs jds szs wd =
          .error (lenErrMsg nm n fps.length) ∧
        ((nm = "obsid_list" ∧ n = obs.length) ∨
          (nm = "jd_start_list" ∧ n = jds.length) ∨
          (nm = "size_list" ∧ n = szs.length)) := by
    intro tp hget w hw
    by_cases h1 : obs.length ≠ fps.length
    · exact ⟨"obsid_list", obs.length, h1,
        by simp [add_files_to_tape, hget, hw, h1], Or.inl ⟨rfl, rfl⟩⟩
    · by_cases h2 : jds.length ≠ fps.length
      · exact ⟨"jd_start_list", jds.length, h2,
          by simp [add_files_to_tape, hget, hw, h1, h2],
          Or.inr (Or.inl ⟨rfl, rfl⟩)⟩
      · have h3 : szs.length ≠ fps.length := by tauto
        exact ⟨"size_list", szs.length, h3,
          by simp [add_files_to_tape, hget, hw, h1, h2, h3],
          Or.inr (Or.inr ⟨rfl, rfl⟩)⟩
  refine ⟨?_, main, fun nm n m => rfl⟩
  cases hget : get_tape st tid with
  | none => exact ⟨tapeMissingMsg tid, by simp [add_files_to_tape, hget]⟩
  | some tp =>
    cases hw : coerce_opt_write_date wd with
    | error e => exact ⟨e, by simp [add_files_to_tape, hget, hw]⟩
    | ok w =>
      obtain ⟨nm, n, _, heq, _⟩ := main tp hget w hw
      exact ⟨lenErrMsg nm n fps.length, heq⟩

/-! ### C2: isclose reflexivity, symmetry and type strictness -/

theorem lookupTol_nonneg (tols : List (String × ℚ × ℚ)) (name : String)
    (h : tolsNonneg tols) :
    0 ≤ (lookupTol tols name).1 ∧ 0 ≤ (lookupTol tols name).2 := by
  unfold lookupTol
  cases hf : tols.find? (fun p => p.1 == name) with
  | none => norm_num
  | some p =>
    have hp := h p (List.mem_of_find?_eq_some hf)
    simpa using hp

theorem npIsclose_refl (atol rtol a : ℚ) (ha : 0 ≤ atol) (hr : 0 ≤ rtol) :
    npIsclose atol rtol a a = true := by
  simp only [npIsclose, sub_self, abs_zero, decide_eq_true_eq]
  have := mul_nonneg hr (abs_nonneg a)
  linarith

theorem npAllclose_refl (atol rtol : ℚ) (ha : 0 ≤ atol) (hr : 0 ≤ rtol) :
    ∀ xs, npAllclose atol rtol xs xs = true := by
  intro xs
  induction xs with
  | nil => rfl
  | cons x xs ih =>
    simp only [npAllclose, Bool.and_eq_true]
    exact ⟨npIsclose_refl atol rtol x ha hr, ih⟩

theorem colClose_refl (atol rtol : ℚ) (ha : 0 ≤ atol) (hr : 0 ≤ rtol) :
    ∀ v, colClose atol rtol v v = true := by
  intro v
  cases v <;>
    simp [colClose, pyIsinstance, pyIntValue, pyDateEq,
      npIsclose_refl _ _ _ ha hr, npAllclose_refl _ _ ha hr]

theorem lookupCol_cons (n k : String) (w : PyVal)
    (bs : List (String × PyVal)) :
    lookupCol ((n, w) :: bs) k = if n == k then some w else lookupCol bs k := by
  by_cases h : n = k <;> simp [lookupCol, List.find?_cons, h]

theorem rowClose_skip (tols : List (String × ℚ × ℚ)) (n : String)
    (w : PyVal) (bs : List (String × PyVal)) :
    ∀ as', (∀ p ∈ as', p.1 ≠ n) →
      rowClose tols ((n, w) :: bs) as' = rowClose tols bs as' := by
  intro as'
  induction as' with
  | nil => intro _; rfl
  | cons a rest ih =>
    intro h
    obtain ⟨k, v⟩ := a
    have hk : k ≠ n := h (k, v) (List.mem_cons_self _ _)
    have hnk : (n == k) = false := by
      simp only [beq_eq_false_iff_ne, ne_eq]
      exact fun hh => hk hh.symm
    simp only [rowClose]
    rw [lookupCol_cons, hnk]
    simp only [if_false, Bool.false_eq_true]
    rw [ih (fun p hp => h p (List.mem_cons_of_mem _ hp))]

theorem forall₂_fst_eq {as' bs : List (String × PyVal)}
    (h : List.Forall₂
      (fun p q => p.1 = q.1 ∧ exactKindPair p.2 q.2 = true) as' bs) :
    as'.map Prod.fst = bs.map Prod.fst := by
  induction h with
  | nil => rfl
  | cons hpq _ ih => simp [hpq.1, ih]

theorem colClose_symm_exact (atol rtol atol' rtol' : ℚ) (v w : PyVal)
    (h : exactKindPair v w = true) :
    colClose atol rtol v w = colClose atol' rtol' w v := by
  cases v <;> cases w <;>
    simp only [exactKindPair, Bool.false_eq_true] at h <;>
    first
      | rfl
      | (simp only [colClose, pyIsinstance, pyDateEq, pyIntValue,
          Bool.not_true, Bool.not_false, if_true, if_false, ite_true,
          ite_false, Bool.false_eq_true, not_false_eq_true, not_true_eq_false]
         first | rfl | exact beq_symm _ _)

theorem rowClose_self (tols : List (String × ℚ × ℚ)) (hnn : tolsNonneg tols) :
    ∀ cols, (cols.map Prod.fst).Nodup → rowClose tols cols cols = true := by
  intro cols
  induction cols with
  | nil => intro _; rfl
  | cons a rest ih =>
    intro hnodup
    obtain ⟨n, v⟩ := a
    simp only [List.map_cons, List.nodup_cons] at hnodup
    obtain ⟨hn, hrest⟩ := hnodup
    have hskip : ∀ p ∈ rest, p.1 ≠ n := by
      intro p hp he
      exact hn (he ▸ List.mem_map_of_mem Prod.fst hp)
    simp only [rowClose]
    rw [lookupCol_cons]
    simp only [beq_self_eq_true, if_true]
    rw [rowClose_skip tols n v rest rest hskip, ih hrest]
    have ht := lookupTol_nonneg tols n hnn
    simp [colClose_refl _ _ ht.1 ht.2]

theorem rowClose_symm (tols : List (String × ℚ × ℚ)) :
    ∀ (as' bs : List (String × PyVal)),
      List.Forall₂
        (fun p q => p.1 = q.1 ∧ exactKindPair p.2 q.2 = true) as' bs →
      (as'.map Prod.fst).Nodup →
      rowClose tols bs as' = rowClose tols as' bs := by
  intro as' bs h
  induction h with
  | nil => intro _; rfl
  | @cons p q as₂ bs₂ hpq hrest ih =>
    intro hnodup
    obtain ⟨n, v⟩ := p
    obtain ⟨m, w⟩ := q
    obtain ⟨hname, hkind⟩ := hpq
    dsimp only at hname
    subst hname
    simp only [List.map_cons, List.nodup_cons] at hnodup
    obtain ⟨hn, hnd⟩ := hnodup
    have hfst := forall₂_fst_eq hrest
    have hskipA : ∀ p ∈ as₂, p.1 ≠ n := by
      intro p hp he
      exact hn (he ▸ List.mem_map_of_mem Prod.fst hp)
    have hskipB : ∀ p ∈ bs₂, p.1 ≠ n := by
      intro p hp he
      apply hn
      rw [hfst]
      exact he ▸ List.mem_map_of_mem Prod.fst hp
    simp only [rowClose]
    rw [lookupCol_cons, lookupCol_cons]
    simp only [beq_self_eq_true, if_true]
    rw [rowClose_skip tols n w bs₂ as₂ hskipA,
      rowClose_skip tols n v as₂ bs₂ hskipB, ih hnd,
      colClose_symm_exact (lookupTol tols n).1 (lookupTol tols n).2
        (lookupTol tols n).1 (lookupTol tols n).2 v w hkind]

/-- C2 counterexample: two records of one class whose only column holds
the int `1` on one side and the bool `True` on the other.  Python's
`isinstance(True, int)` passes the type gate and `1 == True` holds, so
`a.isclose(b)` is true with the int on the left, while the bool-side type
check rejects the int: `isclose` is not symmetric, and differing runtime
types are not consistently false in both directions. -/
theorem c2_counterexample :
    isclose { className := "Tapes", cols := [("size", .pyInt 1)], tols := [] }
        { className := "Tapes", cols := [("size", .pyBool true)], tols := [] } =
      true ∧
    isclose { className := "Tapes", cols := [("size", .pyBool true)], tols := [] }
        { className := "Tapes", cols := [("size", .pyInt 1)], tols := [] } =
      false := by
  constructor <;> rfl

/-- C2 (amended): `a.isclose(a)` is true for every record with distinct
column names and nonnegative tolerance settings (all the program's table
classes satisfy both); `a.isclose(b)` equals `b.isclose(a)` whenever the
records share class and tolerances and their columns align name-for-name
with values of identical runtime type among the exactly-compared kinds;
but an int column compared against a bool column is close exactly when
the underlying values are numerically equal with the int on the left,
while the same pair with the bool on the left is always false — so
`isclose` is neither symmetric in general nor consistently false under
differing runtime types (and float comparisons, which scale the relative
tolerance by the right operand, are likewise direction-dependent). -/
theorem c2_isclose_amended (a b : TableRow) (atol rtol : ℚ) (n : Int)
    (bl : Bool) (hnodup : (a.cols.map Prod.fst).Nodup)
    (hnonneg : tolsNonneg a.tols) :
    isclose a a = true ∧
    (a.className = b.className → a.tols = b.tols →
      List.Forall₂
        (fun p q => p.1 = q.1 ∧ exactKindPair p.2 q.2 = true) a.cols b.cols →
      isclose a b = isclose b a) ∧
    colClose atol rtol (.pyBool bl) (.pyInt n) = false ∧
    colClose atol rtol (.pyInt n) (.pyBool bl) =
      (n == pyIntValue (.pyBool bl)) := by
  refine ⟨?_, fun hclass htols halign => ?_, rfl, rfl⟩
  · simp [isclose, rowClose_self a.tols hnonneg a.cols hnodup]
  · simp only [isclose, hclass, ne_eq, not_true_eq_false, if_false,
      Bool.false_eq_true]
    rw [← htols]
    exact rowClose_symm a.tols a.cols b.cols halign hnodup

/-- C2 witness: reflexivity on a two-column record with a float column
and an override tolerance, symmetry on aligned int-and-str records with
different values, and the directional int/bool column facts. -/
theorem c2_witness :
    isclose { className := "Files",
              cols := [("jd_start", .pyFloat 5), ("obsid", .pyInt 3)],
              tols := [("jd_start", mkRat 1 1000, 0)] }
        { className := "Files",
          cols := [("jd_start", .pyFloat 5), ("obsid", .pyInt 3)],
          tols := [("jd_start", mkRat 1 1000, 0)] } = true ∧
    isclose { className := "Tapes",
              cols := [("tape_id", .pyStr "A"), ("size", .pyInt 3)],
              tols := [] }
        { className := "Tapes",
          cols := [("tape_id", .pyStr "B"), ("size", .pyInt 3)],
          tols := [] } =
      isclose { className := "Tapes",
                cols := [("tape_id", .pyStr "B"), ("size", .pyInt 3)],
                tols := [] }
        { className := "Tapes",
          cols := [("tape_id", .pyStr "A"), ("size", .pyInt 3)],
          tols := [] } ∧
    colClose (1/2) (1/4) (.pyBool true) (.pyInt 1) = false ∧
    colClose (1/2) (1/4) (.pyInt 1) (.pyBool true) =
      ((1 : Int) == pyIntValue (.pyBool true)) := by
  have hrefl := (c2_isclose_amended
    { className := "Files",
      cols := [("jd_start", .pyFloat 5), ("obsid", .pyInt 3)],
      tols := [("jd_start", mkRat 1 1000, 0)] }
    { className := "Files",
      cols := [("jd_start", .pyFloat 5), ("obsid", .pyInt 3)],
      tols := [("jd_start", mkRat 1 1000, 0)] }
    (1/2) (1/4) 1 true (by decide) (by unfold tolsNonneg; decide)).1
  have hsymm := c2_isclose_amended
    { className := "Tapes",
      cols := [("tape_id", .pyStr "A"), ("size", .pyInt 3)], tols := [] }
    { className := "Tapes",
      cols := [("tape_id", .pyStr "B"), ("size", .pyInt 3)], tols := [] }
    (1/2) (1/4) 1 true (by decide) (by unfold tolsNonneg; decide)
  exact ⟨hrefl, hsymm.2.1 rfl rfl
    (List.Forall₂.cons ⟨rfl, rfl⟩ (List.Forall₂.cons ⟨rfl, rfl⟩
      List.Forall₂.nil)), hsymm.2.2.1, hsymm.2.2.2⟩

/-- C7 witness: a two-element `obsid_list` against a three-element
`filepath_list` on a database holding the referenced tape. -/
theorem c7_witness :
    (∃ e, add_files_to_tape
        { tapes := [{ tape_id := "T1", tape_type := "foo",
                      size := 1000000000000, purchase_date := 0 }],
          files := [] }
        "T1" ["a", "b", "c"] [1, 2] [5, 6, 7] [9, 9, 9] none = .error e) ∧
    (∀ tp, get_tape
        { tapes := [{ tape_id := "T1", tape_type := "foo",
                      size := 1000000000000, purchase_date := 0 }],
          files := [] } "T1" = some tp →
      ∀ w, coerce_opt_write_date none = .ok w →
      ∃ nm n, n ≠ (["a", "b", "c"] : List String).length ∧
        add_files_to_tape
          { tapes := [{ tape_id := "T1", tape_type := "foo",
                        size := 1000000000000, purchase_date := 0 }],
            files := [] }
          "T1" ["a", "b", "c"] [1, 2] [5, 6, 7] [9, 9, 9] none =
          .error (lenErrMsg nm n (["a", "b", "c"] : List String).length) ∧
        ((nm = "obsid_list" ∧ n = ([1, 2] : List Int).length) ∨
          (nm = "jd_start_list" ∧ n = ([5, 6, 7] : List ℚ).length) ∨
          (nm = "size_list" ∧ n = ([9, 9, 9] : List Int).length))) ∧
    (∀ nm n m, lenErrMsg nm n m = nm ++ " is length " ++ toString n ++
      ", filepath_list is length " ++ toString m ++
      ". They must be the same length.") :=
  c7_length_mismatch
    { tapes := [{ tape_id := "T1", tape_type := "foo",
                  size := 1000000000000, purchase_date := 0 }],
      files := [] }
    "T1" ["a", "b", "c"] [1, 2] [5, 6, 7] [9, 9, 9] none
    (Or.inl (by decide))

/-! ### C1: the schema validator -/

/-- C1: `is_valid_database` is trivially valid on an absent or empty
expected schema; otherwise it returns
`(len(violations) == 0, joined_violation_messages)`, where a declared
table missing from the live database contributes exactly its
table-missing message (column checks skipped), a declared physical column
missing from the present live table contributes its column-missing
message, and every violation concerns a declared table or a declared
physical column — live columns not declared in the model are never
reported. -/
theorem c1_is_valid_database_behavior :
    (∀ live, is_valid_database none live = (true, "") ∧
      is_valid_database (some []) live = (true, "")) ∧
    (∀ tables live, is_valid_database (some tables) live =
      ((schemaViolations tables live).isEmpty,
        String.intercalate "\n" (schemaViolations tables live))) ∧
    (∀ live t, lookupLive live t.name = none →
      tableViolations live t = [tableViolationMsg t.name]) ∧
    (∀ tables live t, t ∈ tables → lookupLive live t.name = none →
      tableViolationMsg t.name ∈ schemaViolations tables live) ∧
    (∀ live t lt, lookupLive live t.name = some lt →
      ∀ c, c ∈ physicalCols t → ¬lt.columns.contains c →
        colViolationMsg t.name c ∈ tableViolations live t) ∧
    (∀ tables live t lt, t ∈ tables → lookupLive live t.name = some lt →
      ∀ c, c ∈ physicalCols t → ¬lt.columns.contains c →
        colViolationMsg t.name c ∈ schemaViolations tables live) ∧
    (∀ tables live msg, msg ∈ schemaViolations tables live →
      ∃ t, t ∈ tables ∧ (msg = tableViolationMsg t.name ∨
        ∃ c, c ∈ physicalCols t ∧ msg = colViolationMsg t.name c)) := by
  have h3 : ∀ live (t : ModelTable), lookupLive live t.name = none →
      tableViolations live t = [tableViolationMsg t.name] := by
    intro live t h
    simp [tableViolations, h]
  have h5 : ∀ live (t : ModelTable) lt, lookupLive live t.name = some lt →
      ∀ c, c ∈ physicalCols t → ¬lt.columns.contains c →
        colViolationMsg t.name c ∈ tableViolations live t := by
    intro live t lt h c hc hmiss
    simp only [tableViolations, h]
    exact List.mem_map.mpr
      ⟨c, List.mem_filter.mpr ⟨hc, by simpa using hmiss⟩, rfl⟩
  refine ⟨fun live => ⟨rfl, rfl⟩, fun tables live => rfl, h3, ?_, h5, ?_, ?_⟩
  · intro tables live t ht h
    exact List.mem_flatMap.mpr ⟨t, ht, by simp [h3 live t h]⟩
  · intro tables live t lt ht h c hc hmiss
    exact List.mem_flatMap.mpr ⟨t, ht, h5 live t lt h c hc hmiss⟩
  · intro tables live msg h
    obtain ⟨t, ht, hmsg⟩ := List.mem_flatMap.mp h
    refine ⟨t, ht, ?_⟩
    cases hlook : lookupLive live t.name with
    | none =>
      rw [h3 live t hlook] at hmsg
      exact Or.inl (by simpa using hmsg)
    | some lt =>
      simp only [tableViolations, hlook] at hmsg
      obtain ⟨c, hcf, rfl⟩ := List.mem_map.mp hmsg
      exact Or.inr ⟨c, (List.mem_filter.mp hcf).1, rfl⟩

end Heratape
